import Mathlib

/-!
# A model of `server.js`

`server.js` is an Express application in front of one PostgreSQL table,
`count_data_table (date DATE PRIMARY KEY, tf_count INT, da_count INT)`.
Every route is a JavaScript closure that reads a few fields of the request,
issues one or two SQL statements through `pool.query`, and answers with a
status code and a JSON body.

The embedding is by explicit state passing:

* a request is the record of the fields the handlers read;
* the database is `Option Table`: `none` while `count_data_table` does not
  exist, `some rows` once `/create` has run;
* `pool.query` is a function returning `none` when the statement raises (the
  handlers' `catch` branch) and `some result` otherwise;
* a handler maps a database state to a response and the next database state.

The SQL engine is not part of the repository.  Its behaviour is modelled for
the statements the handlers issue: `TO_DATE(_, 'DD/MM/YYYY')` on slash
separated digit fields of a calendar date of the years 1 to 5874897 (the last
year of the type `DATE`), `TO_CHAR(_, 'DD/MM/YYYY')`, `ORDER BY` on the output
column `date`, the primary key on `date`, the 32-bit range of `INT`, and SQL
`NULL`.  The backend is assumed reachable, and requests are served one after
the other.
-/

namespace Server

/-! ## JavaScript values -/

/-- JavaScript values that reach the handlers: what `express.json()`, the
query-string reader and `process.env` produce.  Numbers are the integral
ones; arrays and plain objects are folded into `object`. -/
inductive JSVal where
  | undefined
  | null
  | bool (b : Bool)
  | num (n : Int)
  | str (s : String)
  | object
  deriving DecidableEq, Repr

/-- JavaScript truthiness, the meaning of `!x` and of `x || y`. -/
def JSVal.truthy : JSVal → Bool
  | .undefined => false
  | .null => false
  | .bool b => b
  | .num n => n != 0
  | .str s => s != ""
  | .object => true

/-- The operator `a || b`. -/
def JSVal.or (a b : JSVal) : JSVal :=
  if a.truthy then a else b

/-- The operator `a === b`.  Two objects are equal only when they are the same
reference; an object built while reading a request is never the same reference
as a configured value, so that case is `false`. -/
def JSVal.strictEq : JSVal → JSVal → Bool
  | .undefined, .undefined => true
  | .null, .null => true
  | .bool a, .bool b => a == b
  | .num a, .num b => a == b
  | .str a, .str b => a == b
  | _, _ => false

/-- A header or environment variable: a string when present, `undefined`
otherwise. -/
def JSVal.ofOption : Option String → JSVal
  | none => .undefined
  | some s => .str s

/-! ## Requests, responses, configuration -/

/-- The process environment as far as the server reads it:
`process.env.API_KEY`. -/
structure Env where
  API_KEY : Option String
  deriving DecidableEq, Repr

/-- The fields of a request the handlers read. -/
structure Request where
  /-- Value of `req.header('x-api-key')`. -/
  header_x_api_key : Option String := none
  /-- Value of `req.query.api_key`. -/
  query_api_key : JSVal := .undefined
  /-- Value of `req.query.date`. -/
  query_date : JSVal := .undefined
  /-- Value of `req.body.date`. -/
  body_date : JSVal := .undefined
  /-- Value of `req.body.tf_count`. -/
  body_tf_count : JSVal := .undefined
  /-- Value of `req.body.da_count`. -/
  body_da_count : JSVal := .undefined
  deriving DecidableEq, Repr

/-- The routes registered on `app`. -/
inductive Route where
  | create
  | add
  | allData
  | data
  | update
  | delete
  | api
  deriving DecidableEq, Repr

/-- A result row as the `SELECT`/`RETURNING` lists shape it: `date` rendered by
`TO_CHAR`, each count a number or `null`. -/
structure RecordJson where
  date : String
  tf_count : Option Int
  da_count : Option Int
  deriving DecidableEq, Repr

/-- The response bodies the server sends. -/
inductive Body where
  /-- The object `{error: msg}`. -/
  | error (msg : String)
  /-- The object `{message: msg}`. -/
  | message (msg : String)
  /-- A plain string sent with `res.send`. -/
  | text (s : String)
  /-- One result row. -/
  | record (r : RecordJson)
  /-- An array of result rows. -/
  | records (rs : List RecordJson)
  /-- The object `{message: msg, updated: rows[0]}`. -/
  | updated (msg : String) (r : Option RecordJson)
  /-- The object `{message: msg, deleted: rows[0]}`, the row being `{date}`. -/
  | deleted (msg : String) (date : Option String)
  deriving DecidableEq, Repr

/-- A response: status code and body. -/
structure Response where
  status : Nat
  body : Body
  deriving DecidableEq, Repr

/-! ## The table -/

/-- A value of the SQL type `DATE`. -/
structure Date where
  year : Nat
  month : Nat
  day : Nat
  deriving DecidableEq, Repr

/-- Chronological order of dates: the order of the calendar. -/
def Date.le (a b : Date) : Prop :=
  a.year < b.year ∨ (a.year = b.year ∧ (a.month < b.month ∨ (a.month = b.month ∧ a.day ≤ b.day)))

instance : DecidableRel Date.le := fun a b => by
  unfold Date.le
  exact inferInstance

/-- A row of `count_data_table`: `date` is the primary key, the `INT` columns
admit `NULL`. -/
structure Row where
  date : Date
  tf_count : Option Int
  da_count : Option Int
  deriving DecidableEq, Repr

/-- The rows of `count_data_table`. -/
abbrev Table := List Row

/-- The database: `none` until `count_data_table` is created. -/
abbrev DB := Option Table

/-- The stored dates of a table. -/
def dates (t : Table) : List Date := t.map Row.date

/-! ## The SQL functions `TO_DATE` and `TO_CHAR` -/

def isLeapYear (y : Nat) : Bool :=
  (y % 4 == 0 && y % 100 != 0) || y % 400 == 0

def daysInMonth (y m : Nat) : Nat :=
  if m = 2 then (if isLeapYear y then 29 else 28)
  else if m = 4 ∨ m = 6 ∨ m = 9 ∨ m = 11 then 30
  else 31

/-- The last year of the SQL type `DATE`. -/
def maxYear : Nat := 5874897

/-- A date of the calendar that the type `DATE` holds, from year 1 to
`maxYear`. -/
def Date.valid (d : Date) : Bool :=
  decide (1 ≤ d.year) && decide (d.year ≤ maxYear) &&
    decide (1 ≤ d.month) && decide (d.month ≤ 12) &&
    decide (1 ≤ d.day) && decide (d.day ≤ daysInMonth d.year d.month)

def digitValue (c : Char) : Nat := c.toNat - 48

def digitChar (n : Nat) : Char := Char.ofNat (48 + n)

/-- Reads a non-empty run of decimal digits. -/
def readNat (cs : List Char) : Option Nat :=
  if cs ≠ [] ∧ cs.all Char.isDigit = true then
    some (cs.foldl (fun a c => 10 * a + digitValue c) 0)
  else none

/-- Splits a text at every `/`. -/
def splitSlash : List Char → List (List Char)
  | [] => [[]]
  | c :: cs =>
    if c = '/' then [] :: splitSlash cs
    else
      match splitSlash cs with
      | [] => [[c]]
      | f :: fs => (c :: f) :: fs

/-- The call `TO_DATE(s, 'DD/MM/YYYY')` on texts made of three slash separated
digit fields: day, month and year are read as numbers, so `1/1/2025` is read
like `01/01/2025`, and the call raises (`none`) when they name no date of the
calendar within the years of `DATE`.  A text without digits, such as `abc`,
raises as well.  The database reads some further texts as dates (another
separator, blanks around the fields, text after the year, a day `00`, the
empty text); these forms are left out here and read as `none`, so a result
stated for `TO_DATE d = some x` speaks of the slash separated forms only. -/
def TO_DATE (s : String) : Option Date :=
  match splitSlash s.data with
  | [ds, ms, ys] =>
    match readNat ds, readNat ms, readNat ys with
    | some d, some m, some y =>
      if (Date.mk y m d).valid then some (Date.mk y m d) else none
    | _, _, _ => none
  | _ => none

/-- The call `TO_CHAR(d, 'DD/MM/YYYY')`: two digits, two digits, and the year
on at least four digits. -/
def TO_CHAR (d : Date) : String :=
  String.mk
    ([digitChar (d.day / 10 % 10), digitChar (d.day % 10), '/',
      digitChar (d.month / 10 % 10), digitChar (d.month % 10), '/'] ++
     (if d.year < 10000 then
        [digitChar (d.year / 1000), digitChar (d.year / 100 % 10),
         digitChar (d.year / 10 % 10), digitChar (d.year % 10)]
      else (Nat.repr d.year).data))

/-! ## Statement parameters -/

/-- How `pg` sends a JavaScript value as a statement parameter: `none` is SQL
`NULL`, anything else travels as text.  Arrays and objects are sent as a brace
literal. -/
def pgText : JSVal → Option String
  | .undefined => none
  | .null => none
  | .bool b => some (if b then "true" else "false")
  | .num n => some (toString n)
  | .str s => some s
  | .object => some "\x7b\x7d"

/-- The parameter `$1` under `TO_DATE($1, 'DD/MM/YYYY')`: `none` when the call
raises, `some none` for `NULL`, `some (some d)` for a date. -/
def dateParam (v : JSVal) : Option (Option Date) :=
  match pgText v with
  | none => some none
  | some s => (TO_DATE s).map some

/-- The values of the SQL type `INT`. -/
def inInt4 (n : Int) : Prop := -2147483648 ≤ n ∧ n ≤ 2147483647

instance (n : Int) : Decidable (inInt4 n) := by
  unfold inInt4
  exact inferInstance

/-- Text input of the SQL type `INT`: an optionally signed decimal literal
within range, blanks around it ignored. -/
def int4in (s : String) : Option Int :=
  let body : List Char :=
    ((s.data.dropWhile Char.isWhitespace).reverse.dropWhile Char.isWhitespace).reverse
  let signed : Option Int :=
    match body with
    | '-' :: cs => (readNat cs).map (fun n => - (n : Int))
    | '+' :: cs => (readNat cs).map (fun n => (n : Int))
    | cs => (readNat cs).map (fun n => (n : Int))
  match signed with
  | some n => if inInt4 n then some n else none
  | none => none

/-- A parameter assigned to an `INT` column: `none` when the statement raises,
`some none` for `NULL`, `some (some n)` for a number.  A JavaScript number is
sent as its decimal text and read back as the same number when it fits. -/
def intParam : JSVal → Option (Option Int)
  | .undefined => some none
  | .null => some none
  | .num n => if inInt4 n then some (some n) else none
  | .str s => (int4in s).map some
  | .bool _ => none
  | .object => none

/-! ## The statements sent through `pool.query` -/

/-- The projection `TO_CHAR(date, 'DD/MM/YYYY') as date, tf_count, da_count`. -/
def render (r : Row) : RecordJson :=
  { date := TO_CHAR r.date, tf_count := r.tf_count, da_count := r.da_count }

/-- The predicate `WHERE date = TO_DATE($1, 'DD/MM/YYYY')`; a comparison with
`NULL` selects nothing. -/
def matchesDate (p : Option Date) (r : Row) : Bool :=
  decide (p = some r.date)

/-- The assignment `SET tf_count = $2, da_count = $3` on the rows the `WHERE`
clause selects. -/
def setCounts (p : Option Date) (a b : Option Int) (r : Row) : Row :=
  if matchesDate p r then { r with tf_count := a, da_count := b } else r

/-- Order of texts, character by character: `a` comes no later than `b`. -/
def textLe : List Char → List Char → Bool
  | [], _ => true
  | _ :: _, [] => false
  | a :: as, b :: bs =>
    if a.toNat < b.toNat then true
    else if b.toNat < a.toNat then false
    else textLe as bs

/-- The order of `ORDER BY date` under the select list
`TO_CHAR(date, 'DD/MM/YYYY') as date, tf_count, da_count`: the name `date`
stands for the output column, the rendered text, so rows are compared as
texts, character by character.  The rendered dates carry their two `/` at the
same places, so the order of the digits decides. -/
def byDateText (a b : RecordJson) : Prop := textLe a.date.data b.date.data = true

instance : DecidableRel byDateText := fun a b => by
  unfold byDateText
  exact inferInstance

/-- The statement `CREATE TABLE IF NOT EXISTS count_data_table (...)`. -/
def createTable (db : DB) : Option DB :=
  match db with
  | none => some (some [])
  | some t => some (some t)

/-- The statement `INSERT INTO count_data_table (date, tf_count, da_count)
VALUES (TO_DATE($1, 'DD/MM/YYYY'), $2, $3)`.  It raises when the table is
missing, a parameter is rejected, the key is `NULL`, or the key is taken. -/
def insertRow (db : DB) (date tf da : JSVal) : Option DB :=
  match db, dateParam date, intParam tf, intParam da with
  | some t, some (some d), some a, some b =>
    if d ∈ dates t then none
    else some (some (t ++ [{ date := d, tf_count := a, da_count := b }]))
  | _, _, _, _ => none

/-- The statement `SELECT TO_CHAR(date, 'DD/MM/YYYY') as date, tf_count,
da_count FROM count_data_table ORDER BY date`. -/
def selectAll (db : DB) : Option (List RecordJson) :=
  match db with
  | some t => some ((t.map render).insertionSort byDateText)
  | none => none

/-- The statement `SELECT TO_CHAR(date, 'DD/MM/YYYY') AS date, tf_count,
da_count FROM count_data_table WHERE date = TO_DATE($1, 'DD/MM/YYYY')`. -/
def selectByDate (db : DB) (date : JSVal) : Option (List RecordJson) :=
  match db, dateParam date with
  | some t, some p => some ((t.filter (matchesDate p)).map render)
  | _, _ => none

/-- The statement `SELECT * FROM count_data_table WHERE date =
TO_DATE($1, 'DD/MM/YYYY')`. -/
def selectStarByDate (db : DB) (date : JSVal) : Option (List Row) :=
  match db, dateParam date with
  | some t, some p => some (t.filter (matchesDate p))
  | _, _ => none

/-- The statement `UPDATE count_data_table SET tf_count = $2, da_count = $3
WHERE date = TO_DATE($1, 'DD/MM/YYYY') RETURNING TO_CHAR(date, 'DD/MM/YYYY')
as date, tf_count, da_count`: the returned rows and the next state. -/
def updateRow (db : DB) (date tf da : JSVal) : Option (List RecordJson × DB) :=
  match db, dateParam date, intParam tf, intParam da with
  | some t, some p, some a, some b =>
    let t1 : Table := t.map (setCounts p a b)
    some (((t1.filter (matchesDate p)).map render), some t1)
  | _, _, _, _ => none

/-- The statement `DELETE FROM count_data_table WHERE date =
TO_DATE($1, 'DD/MM/YYYY') RETURNING TO_CHAR(date, 'DD/MM/YYYY') as date`:
the returned rows and the next state. -/
def deleteRow (db : DB) (date : JSVal) : Option (List String × DB) :=
  match db, dateParam date with
  | some t, some p =>
    some (((t.filter (matchesDate p)).map (fun r => TO_CHAR r.date)),
          some (t.filter (fun r => !matchesDate p r)))
  | _, _ => none

/-! ## Middleware and handlers -/

/-- The expression `req.header('x-api-key') || req.query.api_key`. -/
def keyFromClient (req : Request) : JSVal :=
  (JSVal.ofOption req.header_x_api_key).or req.query_api_key

/-- The value of `process.env.API_KEY`. -/
def validKey (env : Env) : JSVal := JSVal.ofOption env.API_KEY

/-- The middleware `authenticateApiKey`; `next` is the downstream handler. -/
def authenticateApiKey (env : Env) (req : Request) (next : DB → Response × DB)
    (db : DB) : Response × DB :=
  if !(keyFromClient req).strictEq (validKey env) then
    ({ status := 401, body := .error "Invalid or missing API key" }, db)
  else next db

/-- Handler of `GET /create`. -/
def createHandler (_req : Request) (db : DB) : Response × DB :=
  match createTable db with
  | some db1 => ({ status := 200, body := .message "✅ Table created or already exists." }, db1)
  | none => ({ status := 500, body := .text "Error creating one or more tables." }, db)

/-- Handler of `POST /api/add`. -/
def addHandler (req : Request) (db : DB) : Response × DB :=
  match insertRow db req.body_date req.body_tf_count req.body_da_count with
  | some db1 => ({ status := 200, body := .message "Data inserted successfully" }, db1)
  | none => ({ status := 500, body := .error "Failed to insert data" }, db)

/-- Handler of `GET /api/all/data`. -/
def allDataHandler (_req : Request) (db : DB) : Response × DB :=
  match selectAll db with
  | some rows => ({ status := 200, body := .records rows }, db)
  | none => ({ status := 500, body := .error "Failed to retrieve data" }, db)

/-- Handler of `GET /api/data`. -/
def dataHandler (req : Request) (db : DB) : Response × DB :=
  let inputDate := req.query_date
  if !inputDate.truthy then
    ({ status := 400, body := .error "Date is required as query param" }, db)
  else
    match selectByDate db inputDate with
    | some [] => ({ status := 404, body := .message "No data found for this date" }, db)
    | some (row :: _) => ({ status := 200, body := .record row }, db)
    | none => ({ status := 500, body := .error "Failed to retrieve data" }, db)

/-- Handler of `PUT /api/update`. -/
def updateHandler (req : Request) (db : DB) : Response × DB :=
  let inputDate := req.query_date
  let tf_count := req.body_tf_count
  let da_count := req.body_da_count
  if !inputDate.truthy || !tf_count.truthy || !da_count.truthy then
    ({ status := 400, body := .error "Date, tf_count, and da_count are required" }, db)
  else
    match selectStarByDate db inputDate with
    | none => ({ status := 500, body := .error "Failed to update data" }, db)
    | some result =>
      if result.length = 0 then
        ({ status := 404, body := .message "No record found for this date" }, db)
      else
        match updateRow db inputDate tf_count da_count with
        | none => ({ status := 500, body := .error "Failed to update data" }, db)
        | some (rows, db1) =>
          ({ status := 200, body := .updated "Data updated successfully" rows.head? }, db1)

/-- Handler of `DELETE /api/delete`. -/
def deleteHandler (req : Request) (db : DB) : Response × DB :=
  let inputDate := req.query_date
  if !inputDate.truthy then
    ({ status := 400, body := .error "Date is required as query param" }, db)
  else
    match deleteRow db inputDate with
    | none => ({ status := 500, body := .error "Failed to delete data" }, db)
    | some (rows, db1) =>
      if rows.length = 0 then
        ({ status := 404, body := .message "No record found for this date" }, db1)
      else
        ({ status := 200, body := .deleted "Record deleted successfully" rows.head? }, db1)

/-- Handler of `GET /api`. -/
def apiHandler (_req : Request) (db : DB) : Response × DB :=
  match selectAll db with
  | some _ => ({ status := 200, body := .message "Server Online" }, db)
  | none => ({ status := 500, body := .error "Failed to retrieve data" }, db)

/-- The application: the route table of `app`.  Every route under `/api`
runs `authenticateApiKey` first. -/
def handle (env : Env) (route : Route) (req : Request) (db : DB) : Response × DB :=
  match route with
  | .create => createHandler req db
  | .add => authenticateApiKey env req (addHandler req) db
  | .allData => authenticateApiKey env req (allDataHandler req) db
  | .data => authenticateApiKey env req (dataHandler req) db
  | .update => authenticateApiKey env req (updateHandler req) db
  | .delete => authenticateApiKey env req (deleteHandler req) db
  | .api => authenticateApiKey env req (apiHandler req) db

/-- The database after serving a list of requests in order. -/
def run (env : Env) : List (Route × Request) → DB → DB
  | [], db => db
  | (route, req) :: rest, db => run env rest (handle env route req db).2

/-- The request carries the configured key: the middleware lets it through. -/
def authenticated (env : Env) (req : Request) : Prop :=
  (keyFromClient req).strictEq (validKey env) = true

instance (env : Env) (req : Request) : Decidable (authenticated env req) := by
  unfold authenticated
  exact inferInstance

/-- A text of the exact shape `DD/MM/YYYY` that names a calendar date. -/
def validDDMMYYYY (s : String) : Bool :=
  match s.data with
  | [d1, d2, s1, m1, m2, s2, y1, y2, y3, y4] =>
    d1.isDigit && d2.isDigit && m1.isDigit && m2.isDigit &&
    y1.isDigit && y2.isDigit && y3.isDigit && y4.isDigit &&
    s1 == '/' && s2 == '/' &&
    (Date.mk
      (1000 * digitValue y1 + 100 * digitValue y2 + 10 * digitValue y3 + digitValue y4)
      (10 * digitValue m1 + digitValue m2)
      (10 * digitValue d1 + digitValue d2)).valid
  | _ => false

/-- The primary key constraint: no two rows of the table share a date. -/
def uniqueDates : DB → Prop
  | none => True
  | some t => (dates t).Nodup

/-! ## Sample data -/

/-- An environment whose `API_KEY` is `k`. -/
def envK : Env := { API_KEY := some "k" }

/-- An environment without `API_KEY`. -/
def envUnset : Env := { API_KEY := none }

/-- The row of 1 January 2025 with counts 5 and 3. -/
def rowJan1 : Row := { date := Date.mk 2025 1 1, tf_count := some 5, da_count := some 3 }

/-- The row of 2 January 2025 with counts 7 and 8. -/
def rowJan2 : Row := { date := Date.mk 2025 1 2, tf_count := some 7, da_count := some 8 }

/-- The row of 1 February 2025 with counts 1 and 2. -/
def rowFeb1 : Row := { date := Date.mk 2025 2 1, tf_count := some 1, da_count := some 2 }

/-- The request `DELETE /api/delete?date=01/01/2025` without any key. -/
def keylessDelete : Request := { query_date := .str "01/01/2025" }

/-- The request `POST /api/add` with key `k` and body
`{date: "06/05/2025", tf_count: 5, da_count: 3}`. -/
def addMay6 : Request :=
  { header_x_api_key := some "k", body_date := .str "06/05/2025",
    body_tf_count := .num 5, body_da_count := .num 3 }

/-- The request `GET /api/data?date=06/05/2025` with key `k`. -/
def getMay6 : Request :=
  { header_x_api_key := some "k", query_date := .str "06/05/2025" }

/-- The request `PUT /api/update?date=01/01/2025` with key `k` and body
`{tf_count: 9, da_count: 1}`. -/
def updateJan1 : Request :=
  { header_x_api_key := some "k", query_date := .str "01/01/2025",
    body_tf_count := .num 9, body_da_count := .num 1 }

/-- The request `PUT /api/update?date=01/01/2025` with key `k` and body
`{tf_count: 0, da_count: 1}`. -/
def updateZero : Request :=
  { header_x_api_key := some "k", query_date := .str "01/01/2025",
    body_tf_count := .num 0, body_da_count := .num 1 }

/-- The request `PUT /api/update?date=abc` with key `k` and body
`{tf_count: 9, da_count: 1}`. -/
def updateMalformed : Request :=
  { header_x_api_key := some "k", query_date := .str "abc",
    body_tf_count := .num 9, body_da_count := .num 1 }

/-- The request `PUT /api/update?date=02/01/2025` with key `k` and body
`{tf_count: 9, da_count: 1}`. -/
def updateJan2 : Request :=
  { header_x_api_key := some "k", query_date := .str "02/01/2025",
    body_tf_count := .num 9, body_da_count := .num 1 }

/-- The request `PUT /api/update?date=01/01/2025` with key `k` and body
`{tf_count: 3000000000, da_count: 1}`. -/
def updateTooBig : Request :=
  { header_x_api_key := some "k", query_date := .str "01/01/2025",
    body_tf_count := .num 3000000000, body_da_count := .num 1 }

/-- The request `PUT /api/update?date=01/01/2025` with key `k` and body
`{tf_count: "many", da_count: 1}`. -/
def updateText : Request :=
  { header_x_api_key := some "k", query_date := .str "01/01/2025",
    body_tf_count := .str "many", body_da_count := .num 1 }

/-- The request `PUT /api/update?date=1/1/2025` with key `k` and body
`{tf_count: 9, da_count: 1}`. -/
def updateShort : Request :=
  { header_x_api_key := some "k", query_date := .str "1/1/2025",
    body_tf_count := .num 9, body_da_count := .num 1 }

/-- The request `GET /api/data?date=01/01/2025` with key `k`. -/
def getJan1 : Request :=
  { header_x_api_key := some "k", query_date := .str "01/01/2025" }

/-- The request `DELETE /api/delete?date=abc` with key `k`. -/
def deleteMalformed : Request :=
  { header_x_api_key := some "k", query_date := .str "abc" }

/-- The request `DELETE /api/delete?date=01/01/2025` with key `k`. -/
def deleteJan1 : Request :=
  { header_x_api_key := some "k", query_date := .str "01/01/2025" }

/-- The request `DELETE /api/delete?date=02/01/2025` with key `k`. -/
def deleteJan2 : Request :=
  { header_x_api_key := some "k", query_date := .str "02/01/2025" }

/-- The request `GET /api/all/data` with key `k`. -/
def getAll : Request := { header_x_api_key := some "k" }

/-- The request `POST /api/add` with key `k` and body
`{date: "01/01/2025", tf_count: 40, da_count: 41}`. -/
def addJan1Again : Request :=
  { header_x_api_key := some "k", body_date := .str "01/01/2025",
    body_tf_count := .num 40, body_da_count := .num 41 }

/-- The request `POST /api/add` with key `k` and body `{date: "01/01/2025"}`. -/
def addNoCounts : Request :=
  { header_x_api_key := some "k", body_date := .str "01/01/2025" }

/-- The request `GET /create`. -/
def getCreate : Request := {}

/-! ## Facts about the middleware -/

theorem authenticateApiKey_pass (env : Env) (req : Request) (next : DB → Response × DB)
    (db : DB) (h : authenticated env req) :
    authenticateApiKey env req next db = next db := by
  unfold authenticated at h
  simp [authenticateApiKey, h]

theorem authenticateApiKey_reject (env : Env) (req : Request) (next : DB → Response × DB)
    (db : DB) (h : ¬ authenticated env req) :
    authenticateApiKey env req next db =
      ({ status := 401, body := .error "Invalid or missing API key" }, db) := by
  unfold authenticated at h
  simp [authenticateApiKey, h]

theorem strictEq_str_iff (v : JSVal) (s : String) :
    v.strictEq (.str s) = true ↔ v = .str s := by
  cases v <;> simp [JSVal.strictEq]

/-! ## Facts about `TO_DATE` and `TO_CHAR` -/

theorem isDigit_bounds (c : Char) (h : c.isDigit = true) : 48 ≤ c.toNat ∧ c.toNat ≤ 57 := by
  simp only [Char.isDigit, Bool.and_eq_true, decide_eq_true_eq] at h
  obtain ⟨h1, h2⟩ := h
  have e1 : (48 : UInt32) ≤ c.val := h1
  have e2 : c.val ≤ (57 : UInt32) := h2
  rw [UInt32.le_def] at e1 e2
  constructor
  · exact e1
  · exact e2

theorem digitValue_lt (c : Char) (h : c.isDigit = true) : digitValue c < 10 := by
  have := isDigit_bounds c h
  unfold digitValue
  omega

theorem digitChar_digitValue (c : Char) (h : c.isDigit = true) :
    digitChar (digitValue c) = c := by
  have := isDigit_bounds c h
  unfold digitChar digitValue
  have e : 48 + (c.toNat - 48) = c.toNat := by omega
  rw [e]
  exact Char.ofNat_toNat c

theorem isDigit_ne_slash (c : Char) (h : c.isDigit = true) : c ≠ '/' := by
  intro e
  subst e
  revert h
  decide

theorem TO_DATE_of_validDDMMYYYY (s : String) (h : validDDMMYYYY s = true) :
    ∃ d, TO_DATE s = some d ∧ TO_CHAR d = s := by
  obtain ⟨cs⟩ := s
  unfold validDDMMYYYY at h
  split at h
  · rename_i d1 d2 s1 m1 m2 s2 y1 y2 y3 y4 hcs
    simp only at hcs
    subst hcs
    simp only [Bool.and_eq_true, beq_iff_eq] at h
    obtain ⟨⟨⟨⟨⟨⟨⟨⟨⟨⟨hd1, hd2⟩, hm1⟩, hm2⟩, hy1⟩, hy2⟩, hy3⟩, hy4⟩, hs1⟩, hs2⟩, hv⟩ := h
    subst hs1 hs2
    have b1 := digitValue_lt d1 hd1
    have b2 := digitValue_lt d2 hd2
    have b3 := digitValue_lt m1 hm1
    have b4 := digitValue_lt m2 hm2
    have b5 := digitValue_lt y1 hy1
    have b6 := digitValue_lt y2 hy2
    have b7 := digitValue_lt y3 hy3
    have b8 := digitValue_lt y4 hy4
    have n1 := isDigit_ne_slash d1 hd1
    have n2 := isDigit_ne_slash d2 hd2
    have n3 := isDigit_ne_slash m1 hm1
    have n4 := isDigit_ne_slash m2 hm2
    have n5 := isDigit_ne_slash y1 hy1
    have n6 := isDigit_ne_slash y2 hy2
    have n7 := isDigit_ne_slash y3 hy3
    have n8 := isDigit_ne_slash y4 hy4
    refine ⟨Date.mk
      (1000 * digitValue y1 + 100 * digitValue y2 + 10 * digitValue y3 + digitValue y4)
      (10 * digitValue m1 + digitValue m2) (10 * digitValue d1 + digitValue d2), ?_, ?_⟩
    · have ey2 : 10 * (10 * (10 * digitValue y1 + digitValue y2) + digitValue y3)
          + digitValue y4
          = 1000 * digitValue y1 + 100 * digitValue y2 + 10 * digitValue y3 + digitValue y4 := by
        omega
      simp [TO_DATE, splitSlash, readNat, n1, n2, n3, n4, n5, n6, n7, n8,
        hd1, hd2, hm1, hm2, hy1, hy2, hy3, hy4, ey2, hv]
    · have q1 : (10 * digitValue d1 + digitValue d2) / 10 % 10 = digitValue d1 := by omega
      have q2 : (10 * digitValue d1 + digitValue d2) % 10 = digitValue d2 := by omega
      have q3 : (10 * digitValue m1 + digitValue m2) / 10 % 10 = digitValue m1 := by omega
      have q4 : (10 * digitValue m1 + digitValue m2) % 10 = digitValue m2 := by omega
      have q5 : (1000 * digitValue y1 + 100 * digitValue y2 + 10 * digitValue y3
          + digitValue y4) / 1000 = digitValue y1 := by omega
      have q6 : (1000 * digitValue y1 + 100 * digitValue y2 + 10 * digitValue y3
          + digitValue y4) / 100 % 10 = digitValue y2 := by omega
      have q7 : (1000 * digitValue y1 + 100 * digitValue y2 + 10 * digitValue y3
          + digitValue y4) / 10 % 10 = digitValue y3 := by omega
      have q8 : (1000 * digitValue y1 + 100 * digitValue y2 + 10 * digitValue y3
          + digitValue y4) % 10 = digitValue y4 := by omega
      have q9 : 1000 * digitValue y1 + 100 * digitValue y2 + 10 * digitValue y3
          + digitValue y4 < 10000 := by omega
      simp only [TO_CHAR, q1, q2, q3, q4, q5, q6, q7, q8, q9, if_true,
        digitChar_digitValue, hd1, hd2, hm1, hm2, hy1, hy2, hy3, hy4]
      rfl
  · exact absurd h (by simp)

theorem TO_DATE_empty : TO_DATE "" = none := by
  rfl

theorem ne_empty_of_TO_DATE (d : String) (x : Date) (h : TO_DATE d = some x) : d ≠ "" := by
  intro e
  subst e
  rw [TO_DATE_empty] at h
  exact absurd h (by simp)

theorem truthy_str (d : String) (h : d ≠ "") : (JSVal.str d).truthy = true := by
  simp [JSVal.truthy, h]

theorem dateParam_str (d : String) (x : Date) (h : TO_DATE d = some x) :
    dateParam (.str d) = some (some x) := by
  simp [dateParam, pgText, h]

theorem dateParam_str_none (d : String) (h : TO_DATE d = none) :
    dateParam (.str d) = none := by
  simp [dateParam, pgText, h]

/-! ## Facts about the statements -/

theorem filter_matchesDate_eq_nil (t : Table) (x : Date) (h : x ∉ dates t) :
    t.filter (matchesDate (some x)) = [] := by
  rw [List.filter_eq_nil_iff]
  intro r hr hm
  apply h
  simp only [matchesDate, decide_eq_true_eq, Option.some.injEq] at hm
  rw [hm]
  exact List.mem_map_of_mem Row.date hr

theorem filter_not_matchesDate_eq_self (t : Table) (x : Date) (h : x ∉ dates t) :
    t.filter (fun r => !matchesDate (some x) r) = t := by
  rw [List.filter_eq_self]
  intro r hr
  simp only [matchesDate, Bool.not_eq_true', decide_eq_false_iff_not, Option.some.injEq]
  intro e
  apply h
  rw [e]
  exact List.mem_map_of_mem Row.date hr

theorem filter_matchesDate_ne_nil (t : Table) (x : Date) (h : x ∈ dates t) :
    ∃ r rest, t.filter (matchesDate (some x)) = r :: rest ∧ r.date = x := by
  obtain ⟨r0, hr0, e0⟩ := List.mem_map.1 h
  have hm : r0 ∈ t.filter (matchesDate (some x)) := by
    rw [List.mem_filter]
    exact ⟨hr0, by simp [matchesDate, e0]⟩
  cases hf : t.filter (matchesDate (some x)) with
  | nil => rw [hf] at hm; exact absurd hm (List.not_mem_nil _)
  | cons r rest =>
    refine ⟨r, rest, rfl, ?_⟩
    have hr : r ∈ t.filter (matchesDate (some x)) := by rw [hf]; exact List.mem_cons_self _ _
    have := (List.mem_filter.1 hr).2
    simpa [matchesDate, eq_comm] using this

theorem setCounts_date (p : Option Date) (a b : Option Int) (r : Row) :
    (setCounts p a b r).date = r.date := by
  unfold setCounts
  split <;> rfl

theorem matchesDate_setCounts (p : Option Date) (a b : Option Int) (r : Row) :
    matchesDate p (setCounts p a b r) = matchesDate p r := by
  simp [matchesDate, setCounts_date]

theorem dates_map_setCounts (p : Option Date) (a b : Option Int) (t : Table) :
    dates (t.map (setCounts p a b)) = dates t := by
  simp [dates, List.map_map, Function.comp_def, setCounts_date]

theorem filter_matchesDate_map_setCounts (p : Option Date) (a b : Option Int) (t : Table) :
    (t.map (setCounts p a b)).filter (matchesDate p) =
      (t.filter (matchesDate p)).map (setCounts p a b) := by
  rw [List.filter_map]
  congr 1
  apply List.filter_congr
  intro r _
  simp [Function.comp_def, matchesDate_setCounts]

theorem filter_other_map_setCounts (x : Date) (a b : Option Int) (t : Table) :
    (t.map (setCounts (some x) a b)).filter (fun r => decide (r.date ≠ x)) =
      t.filter (fun r => decide (r.date ≠ x)) := by
  induction t with
  | nil => rfl
  | cons r t ih =>
    simp only [List.map_cons, List.filter_cons, setCounts_date, ih]
    by_cases h : r.date = x
    · simp [h]
    · have hm : matchesDate (some x) r = false := by
        simp only [matchesDate, decide_eq_false_iff_not, Option.some.injEq]
        exact fun e => h e.symm
      simp [h, setCounts, hm]

/-! ## Facts about `ORDER BY date` -/

theorem Date.le_total (a b : Date) : Date.le a b ∨ Date.le b a := by
  unfold Date.le
  omega

theorem Date.le_trans (a b c : Date) (h1 : Date.le a b) (h2 : Date.le b c) : Date.le a c := by
  unfold Date.le at *
  omega

theorem textLe_total (a b : List Char) : textLe a b = true ∨ textLe b a = true := by
  induction a generalizing b with
  | nil => exact Or.inl (by simp [textLe])
  | cons x xs ih =>
    cases b with
    | nil => exact Or.inr (by simp [textLe])
    | cons y ys =>
      simp only [textLe]
      by_cases h1 : x.toNat < y.toNat
      · simp [h1]
      · by_cases h2 : y.toNat < x.toNat
        · simp [h2]
        · simp only [h1, h2, if_false]
          exact ih ys

theorem textLe_trans (a b c : List Char) (h1 : textLe a b = true) (h2 : textLe b c = true) :
    textLe a c = true := by
  induction a generalizing b c with
  | nil => simp [textLe]
  | cons x xs ih =>
    cases b with
    | nil => simp [textLe] at h1
    | cons y ys =>
      cases c with
      | nil => simp [textLe] at h2
      | cons z zs =>
        simp only [textLe] at h1 h2 ⊢
        by_cases hxy : x.toNat < y.toNat
        · by_cases hyz : y.toNat < z.toNat
          · have : x.toNat < z.toNat := by omega
            simp [this]
          · by_cases hzy : z.toNat < y.toNat
            · simp [hyz, hzy] at h2
            · have : x.toNat < z.toNat := by omega
              simp [this]
        · by_cases hyx : y.toNat < x.toNat
          · simp [hxy, hyx] at h1
          · simp only [hxy, hyx, if_false] at h1
            by_cases hyz : y.toNat < z.toNat
            · have : x.toNat < z.toNat := by omega
              simp [this]
            · by_cases hzy : z.toNat < y.toNat
              · simp [hyz, hzy] at h2
              · simp only [hyz, hzy, if_false] at h2
                have e1 : ¬ x.toNat < z.toNat := by omega
                have e2 : ¬ z.toNat < x.toNat := by omega
                simp only [e1, e2, if_false]
                exact ih ys zs h1 h2

instance : IsTotal RecordJson byDateText :=
  ⟨fun a b => textLe_total a.date.data b.date.data⟩

instance : IsTrans RecordJson byDateText :=
  ⟨fun a b c h1 h2 => textLe_trans a.date.data b.date.data c.date.data h1 h2⟩

/-! ## The primary key is kept by every request -/

theorem uniqueDates_insertRow (db db1 : DB) (date tf da : JSVal) (h : uniqueDates db)
    (hi : insertRow db date tf da = some db1) : uniqueDates db1 := by
  unfold insertRow at hi
  split at hi
  · rename_i t d a b _ _ _
    split at hi
    · exact absurd hi (by simp)
    · rename_i hnot
      simp only [Option.some.injEq] at hi
      subst hi
      simp only [uniqueDates, dates, List.map_append, List.map_cons, List.map_nil] at h ⊢
      rw [List.nodup_append]
      refine ⟨h, List.nodup_singleton _, ?_⟩
      intro y hy hy2
      rw [List.mem_singleton] at hy2
      subst hy2
      exact hnot hy
  · exact absurd hi (by simp)

theorem uniqueDates_updateRow (db db1 : DB) (date tf da : JSVal) (rows : List RecordJson)
    (h : uniqueDates db) (hu : updateRow db date tf da = some (rows, db1)) :
    uniqueDates db1 := by
  unfold updateRow at hu
  split at hu
  · rename_i t p a b _ _ _
    simp only [Option.some.injEq, Prod.mk.injEq] at hu
    obtain ⟨_, e⟩ := hu
    subst e
    simp only [uniqueDates] at h ⊢
    rw [dates_map_setCounts]
    exact h
  · exact absurd hu (by simp)

theorem uniqueDates_deleteRow (db db1 : DB) (date : JSVal) (rows : List String)
    (h : uniqueDates db) (hd : deleteRow db date = some (rows, db1)) :
    uniqueDates db1 := by
  unfold deleteRow at hd
  split at hd
  · rename_i t p _ _
    simp only [Option.some.injEq, Prod.mk.injEq] at hd
    obtain ⟨_, e⟩ := hd
    subst e
    simp only [uniqueDates, dates] at h ⊢
    exact h.sublist ((List.filter_sublist _).map Row.date)
  · exact absurd hd (by simp)

theorem uniqueDates_addHandler (req : Request) (db : DB) (h : uniqueDates db) :
    uniqueDates (addHandler req db).2 := by
  unfold addHandler
  cases hi : insertRow db req.body_date req.body_tf_count req.body_da_count with
  | none => exact h
  | some db1 => exact uniqueDates_insertRow db db1 _ _ _ h hi

theorem uniqueDates_updateHandler (req : Request) (db : DB) (h : uniqueDates db) :
    uniqueDates (updateHandler req db).2 := by
  unfold updateHandler
  simp only
  split
  · exact h
  · cases selectStarByDate db req.query_date with
    | none => exact h
    | some result =>
      simp only
      split
      · exact h
      · cases hu : updateRow db req.query_date req.body_tf_count req.body_da_count with
        | none => exact h
        | some p =>
          obtain ⟨rows, db1⟩ := p
          exact uniqueDates_updateRow db db1 _ _ _ rows h hu

theorem uniqueDates_deleteHandler (req : Request) (db : DB) (h : uniqueDates db) :
    uniqueDates (deleteHandler req db).2 := by
  unfold deleteHandler
  simp only
  split
  · exact h
  · cases hd : deleteRow db req.query_date with
    | none => exact h
    | some p =>
      obtain ⟨rows, db1⟩ := p
      have := uniqueDates_deleteRow db db1 _ rows h hd
      simp only
      split <;> exact this

theorem uniqueDates_dataHandler (req : Request) (db : DB) (h : uniqueDates db) :
    uniqueDates (dataHandler req db).2 := by
  unfold dataHandler
  simp only
  split
  · exact h
  · split <;> exact h

theorem uniqueDates_createHandler (req : Request) (db : DB) (h : uniqueDates db) :
    uniqueDates (createHandler req db).2 := by
  cases db with
  | none => simp [createHandler, createTable, uniqueDates, dates]
  | some t => exact h

theorem uniqueDates_authenticateApiKey (env : Env) (req : Request)
    (next : DB → Response × DB) (db : DB) (h : uniqueDates db)
    (hnext : uniqueDates (next db).2) :
    uniqueDates (authenticateApiKey env req next db).2 := by
  unfold authenticateApiKey
  split
  · exact h
  · exact hnext

theorem uniqueDates_handle (env : Env) (route : Route) (req : Request) (db : DB)
    (h : uniqueDates db) : uniqueDates (handle env route req db).2 := by
  cases route with
  | create => exact uniqueDates_createHandler req db h
  | add => exact uniqueDates_authenticateApiKey env req _ db h (uniqueDates_addHandler req db h)
  | allData =>
    apply uniqueDates_authenticateApiKey env req _ db h
    unfold allDataHandler
    split <;> exact h
  | data =>
    exact uniqueDates_authenticateApiKey env req _ db h (uniqueDates_dataHandler req db h)
  | update =>
    exact uniqueDates_authenticateApiKey env req _ db h (uniqueDates_updateHandler req db h)
  | delete =>
    exact uniqueDates_authenticateApiKey env req _ db h (uniqueDates_deleteHandler req db h)
  | api =>
    apply uniqueDates_authenticateApiKey env req _ db h
    unfold apiHandler
    split <;> exact h

theorem uniqueDates_run (env : Env) (reqs : List (Route × Request)) (db : DB)
    (h : uniqueDates db) : uniqueDates (run env reqs db) := by
  induction reqs generalizing db with
  | nil => exact h
  | cons rq rest ih =>
    obtain ⟨route, req⟩ := rq
    exact ih _ (uniqueDates_handle env route req db h)

/-! ## The claims -/

/-- With `API_KEY` configured, a request whose key is wrong or absent is
answered 401 on every route under `/api`; the handler is not run and the
database is untouched. -/
theorem authenticateApiKey_rejects_when_secret_set (secret : String) (req : Request)
    (route : Route) (db : DB) (hroute : route ≠ .create)
    (hkey : keyFromClient req ≠ .str secret) :
    (∀ next : DB → Response × DB,
      authenticateApiKey { API_KEY := some secret } req next db =
        ({ status := 401, body := .error "Invalid or missing API key" }, db)) ∧
    handle { API_KEY := some secret } route req db =
      ({ status := 401, body := .error "Invalid or missing API key" }, db) := by
  have hn : ¬ authenticated { API_KEY := some secret } req := by
    unfold authenticated validKey JSVal.ofOption
    rw [strictEq_str_iff]
    exact hkey
  refine ⟨fun next => authenticateApiKey_reject _ req next db hn, ?_⟩
  cases route <;> first
    | exact absurd rfl hroute
    | exact authenticateApiKey_reject _ req _ db hn

/-- C1, the defect: with no `API_KEY` in the environment,
`authenticateApiKey` hands a request without `x-api-key` header and without
`api_key` parameter to the downstream handler instead of answering 401; on
`DELETE /api/delete?date=01/01/2025` the handler then removes the row. -/
theorem authenticateApiKey_open_when_secret_unset :
    (∀ (next : DB → Response × DB) (db : DB),
      authenticateApiKey envUnset keylessDelete next db = next db) ∧
    keylessDelete.header_x_api_key = none ∧ keylessDelete.query_api_key = .undefined ∧
    handle envUnset .delete keylessDelete (some [rowJan1]) =
      ({ status := 200, body := .deleted "Record deleted successfully" (some "01/01/2025") },
        some []) := by
  refine ⟨fun next db => ?_, rfl, rfl, ?_⟩
  · rfl
  · decide

/-- C2: after a successful `POST /api/add` of a valid `DD/MM/YYYY` date `d`
that is not yet stored, with integer counts `tf` and `da`, `GET /api/data?date=d`
answers 200 with exactly `{date: d, tf_count: tf, da_count: da}`; the insert
does succeed when both counts fit the `INT` columns. -/
theorem add_then_data_round_trip (env : Env) (t : Table) (d : String) (tf da : Int)
    (addReq getReq : Request)
    (hauthAdd : authenticated env addReq) (hauthGet : authenticated env getReq)
    (hd : validDDMMYYYY d = true)
    (hdate : addReq.body_date = .str d) (htf : addReq.body_tf_count = .num tf)
    (hda : addReq.body_da_count = .num da) (hq : getReq.query_date = .str d)
    (hnew : ∀ x, TO_DATE d = some x → x ∉ dates t) :
    (inInt4 tf → inInt4 da →
      (handle env .add addReq (some t)).1 =
        { status := 200, body := .message "Data inserted successfully" }) ∧
    ((handle env .add addReq (some t)).1.status = 200 →
      handle env .data getReq (handle env .add addReq (some t)).2 =
        ({ status := 200, body := .record { date := d, tf_count := some tf, da_count := some da } },
          (handle env .add addReq (some t)).2)) := by
  obtain ⟨x, hx, hchar⟩ := TO_DATE_of_validDDMMYYYY d hd
  have hnx := hnew x hx
  have hne := ne_empty_of_TO_DATE d x hx
  have hadd : handle env .add addReq (some t) = addHandler addReq (some t) :=
    authenticateApiKey_pass env addReq _ _ hauthAdd
  have hget : ∀ db, handle env .data getReq db = dataHandler getReq db :=
    fun db => authenticateApiKey_pass env getReq _ db hauthGet
  rw [hadd]
  simp only [hget]
  by_cases h1 : inInt4 tf <;> by_cases h2 : inInt4 da <;>
    simp [addHandler, insertRow, hdate, htf, hda, dateParam_str d x hx, intParam, h1, h2, hnx,
      dataHandler, hq, truthy_str d hne, selectByDate, List.filter_append,
      filter_matchesDate_eq_nil t x hnx, matchesDate, render, hchar]

/-- C2 at `06/05/2025` with counts 5 and 3 on the empty table: the day and the
month come back in the order they were sent. -/
theorem add_then_data_round_trip_witness :
    handle envK .data getMay6 (handle envK .add addMay6 (some [])).2 =
      ({ status := 200,
         body := .record { date := "06/05/2025", tf_count := some 5, da_count := some 3 } },
        (handle envK .add addMay6 (some [])).2) :=
  (add_then_data_round_trip envK [] "06/05/2025" 5 3 addMay6 getMay6
    (by decide) (by decide) (by decide) rfl rfl rfl rfl
    (by intro x _; simp [dates])).2 (by decide)

/-- C3: `PUT /api/update` answers 400 with `Date, tf_count, and da_count are
required` exactly when the date parameter, `tf_count` or `da_count` is falsy
(absent, or the number 0); it does so whatever the database holds, leaving it
as it was, and a request with three truthy values is never answered 400. -/
theorem update_validation (env : Env) (req : Request) (db : DB)
    (hauth : authenticated env req) :
    ((req.query_date.truthy = false ∨ req.body_tf_count.truthy = false ∨
        req.body_da_count.truthy = false) →
      handle env .update req db =
        ({ status := 400, body := .error "Date, tf_count, and da_count are required" }, db)) ∧
    (req.query_date.truthy = true → req.body_tf_count.truthy = true →
        req.body_da_count.truthy = true →
      (handle env .update req db).1.status ≠ 400) ∧
    JSVal.undefined.truthy = false ∧ (JSVal.num 0).truthy = false := by
  have hupd : handle env .update req db = updateHandler req db :=
    authenticateApiKey_pass env req _ db hauth
  rw [hupd]
  refine ⟨?_, ?_, rfl, rfl⟩
  · intro h
    unfold updateHandler
    rcases h with h | h | h <;> simp [h]
  · intro h1 h2 h3
    unfold updateHandler
    simp only [h1, h2, h3, Bool.not_true, Bool.or_self, Bool.false_eq_true, if_false]
    cases selectStarByDate db req.query_date with
    | none => simp
    | some result =>
      by_cases hl : result.length = 0
      · simp [hl]
      · simp only [hl, if_false]
        cases updateRow db req.query_date req.body_tf_count req.body_da_count with
        | none => simp
        | some p => simp

/-- C3 at `{tf_count: 0, da_count: 1}` for a stored date: the zero count is
refused with 400 and the row keeps its counts. -/
theorem update_validation_witness :
    handle envK .update updateZero (some [rowJan1]) =
      ({ status := 400, body := .error "Date, tf_count, and da_count are required" },
        some [rowJan1]) :=
  (update_validation envK updateZero (some [rowJan1]) (by decide)).1 (Or.inr (Or.inl rfl))

/-- C4 as stated fails: `PUT /api/update?date=abc` with key and truthy counts
passes the validation guard and matches no row, yet the answer is 500, because
`TO_DATE` raises inside the first statement. -/
theorem update_malformed_date_answers_500 :
    authenticated envK updateMalformed ∧
    updateMalformed.query_date.truthy = true ∧
    updateMalformed.body_tf_count.truthy = true ∧
    updateMalformed.body_da_count.truthy = true ∧
    (∀ r ∈ [rowJan1], dateParam updateMalformed.query_date ≠ some (some r.date)) ∧
    handle envK .update updateMalformed (some [rowJan1]) =
      ({ status := 500, body := .error "Failed to update data" }, some [rowJan1]) := by
  refine ⟨by decide, rfl, rfl, rfl, ?_, by decide⟩
  intro r _
  have h : dateParam updateMalformed.query_date = none := by decide
  rw [h]
  exact fun e => Option.noConfusion e

/-- C4, amended: a `PUT /api/update` that passes validation, whose date is
written as day, month and year in digits separated by `/` and names a calendar
date of the years 1 to 5874897, and whose date is stored in no row, is
answered 404 with `No record found for this date`, whatever the two counts
are (the `UPDATE` statement, which raises on some of them, is not reached),
and the table stays as it was. -/
theorem update_unknown_date_404 (env : Env) (req : Request) (t : Table) (d : String)
    (x : Date) (hauth : authenticated env req) (hq : req.query_date = .str d)
    (hx : TO_DATE d = some x) (htf : req.body_tf_count.truthy = true)
    (hda : req.body_da_count.truthy = true) (hno : x ∉ dates t) :
    handle env .update req (some t) =
      ({ status := 404, body := .message "No record found for this date" }, some t) := by
  have hupd : handle env .update req (some t) = updateHandler req (some t) :=
    authenticateApiKey_pass env req _ _ hauth
  have hne := ne_empty_of_TO_DATE d x hx
  rw [hupd]
  simp [updateHandler, hq, truthy_str d hne, htf, hda, selectStarByDate,
    dateParam_str d x hx, filter_matchesDate_eq_nil t x hno]

/-- C4, amended, at `PUT /api/update?date=02/01/2025` on a table holding only
1 January 2025. -/
theorem update_unknown_date_404_witness :
    handle envK .update updateJan2 (some [rowJan1]) =
      ({ status := 404, body := .message "No record found for this date" }, some [rowJan1]) :=
  update_unknown_date_404 envK updateJan2 [rowJan1] "02/01/2025" (Date.mk 2025 1 2)
    (by decide) rfl (by decide) rfl rfl (by decide)

/-- C5 as stated fails: for a stored date, a count outside the `INT` range or
a truthy count that is no number passes validation and is answered 500, and a
date sent as `1/1/2025` comes back as `01/01/2025`. -/
theorem update_existing_date_not_always_200 :
    handle envK .update updateTooBig (some [rowJan1]) =
      ({ status := 500, body := .error "Failed to update data" }, some [rowJan1]) ∧
    handle envK .update updateText (some [rowJan1]) =
      ({ status := 500, body := .error "Failed to update data" }, some [rowJan1]) ∧
    handle envK .update updateShort (some [rowJan1]) =
      ({ status := 200,
         body := .updated "Data updated successfully"
           (some { date := "01/01/2025", tf_count := some 9, da_count := some 1 }) },
        some [{ date := Date.mk 2025 1 1, tf_count := some 9, da_count := some 1 }]) := by
  refine ⟨by decide, by decide, by decide⟩

/-- C5, amended: a `PUT /api/update` whose date text `d` names a stored date
and whose counts are non-zero integers of the `INT` range is answered 200 with
`Data updated successfully` and the record made of the date rendered as
`DD/MM/YYYY` (which is `d` when `d` is written that way) and the two counts.
Afterwards every row of that date holds the two counts, the rows of other dates
are the same rows in the same order, the stored dates are the same, and
`GET /api/data?date=d` returns the new record. -/
theorem update_existing_date (env : Env) (req getReq : Request) (t : Table) (d : String)
    (x : Date) (tf da : Int) (hauth : authenticated env req)
    (hauthGet : authenticated env getReq) (hq : req.query_date = .str d)
    (hqGet : getReq.query_date = .str d) (hx : TO_DATE d = some x) (hin : x ∈ dates t)
    (htf : req.body_tf_count = .num tf) (hda : req.body_da_count = .num da)
    (htf0 : tf ≠ 0) (hda0 : da ≠ 0) (hrtf : inInt4 tf) (hrda : inInt4 da) :
    ∃ t1 : Table,
      handle env .update req (some t) =
        ({ status := 200,
           body := .updated "Data updated successfully"
             (some { date := TO_CHAR x, tf_count := some tf, da_count := some da }) },
          some t1) ∧
      (validDDMMYYYY d = true → TO_CHAR x = d) ∧
      dates t1 = dates t ∧
      (∀ r ∈ t1, r.date = x → r.tf_count = some tf ∧ r.da_count = some da) ∧
      t1.filter (fun r => decide (r.date ≠ x)) = t.filter (fun r => decide (r.date ≠ x)) ∧
      handle env .data getReq (some t1) =
        ({ status := 200,
           body := .record { date := TO_CHAR x, tf_count := some tf, da_count := some da } },
          some t1) := by
  have hupd : handle env .update req (some t) = updateHandler req (some t) :=
    authenticateApiKey_pass env req _ _ hauth
  have hget : ∀ db, handle env .data getReq db = dataHandler getReq db :=
    fun db => authenticateApiKey_pass env getReq _ db hauthGet
  have hne := ne_empty_of_TO_DATE d x hx
  obtain ⟨r0, rest, hf, hr0⟩ := filter_matchesDate_ne_nil t x hin
  have hm0 : matchesDate (some x) r0 = true := by simp [matchesDate, hr0]
  have hfilt : (t.map (setCounts (some x) (some tf) (some da))).filter (matchesDate (some x))
      = setCounts (some x) (some tf) (some da) r0 ::
          rest.map (setCounts (some x) (some tf) (some da)) := by
    rw [filter_matchesDate_map_setCounts, hf, List.map_cons]
  have hrender : render (setCounts (some x) (some tf) (some da) r0)
      = { date := TO_CHAR x, tf_count := some tf, da_count := some da } := by
    simp [render, setCounts, hm0, hr0]
  refine ⟨t.map (setCounts (some x) (some tf) (some da)), ?_, ?_, ?_, ?_, ?_, ?_⟩
  · rw [hupd]
    simp [updateHandler, hq, htf, hda, hne, JSVal.truthy, htf0, hda0,
      selectStarByDate, dateParam_str d x hx, hf, updateRow, intParam, hrtf, hrda, hfilt,
      hrender]
  · intro hv
    obtain ⟨y, hy, hc⟩ := TO_DATE_of_validDDMMYYYY d hv
    rw [hx] at hy
    cases hy
    exact hc
  · exact dates_map_setCounts _ _ _ t
  · intro r hr hrx
    obtain ⟨r1, _, e⟩ := List.mem_map.1 hr
    subst e
    rw [setCounts_date] at hrx
    have hm1 : matchesDate (some x) r1 = true := by simp [matchesDate, hrx]
    simp [setCounts, hm1]
  · exact filter_other_map_setCounts x _ _ t
  · rw [hget]
    simp [dataHandler, hqGet, truthy_str d hne, selectByDate, dateParam_str d x hx, hfilt,
      hrender]

/-- C5, amended, at `PUT /api/update?date=01/01/2025` with `{tf_count: 9,
da_count: 1}` on a table holding 1 and 2 January 2025. -/
theorem update_existing_date_witness :
    ∃ t1 : Table,
      handle envK .update updateJan1 (some [rowJan1, rowJan2]) =
        ({ status := 200,
           body := .updated "Data updated successfully"
             (some { date := TO_CHAR (Date.mk 2025 1 1), tf_count := some 9,
                     da_count := some 1 }) },
          some t1) ∧
      (validDDMMYYYY "01/01/2025" = true → TO_CHAR (Date.mk 2025 1 1) = "01/01/2025") ∧
      dates t1 = dates [rowJan1, rowJan2] ∧
      (∀ r ∈ t1, r.date = Date.mk 2025 1 1 → r.tf_count = some 9 ∧ r.da_count = some 1) ∧
      t1.filter (fun r => decide (r.date ≠ Date.mk 2025 1 1)) =
        [rowJan1, rowJan2].filter (fun r => decide (r.date ≠ Date.mk 2025 1 1)) ∧
      handle envK .data getJan1 (some t1) =
        ({ status := 200,
           body := .record { date := TO_CHAR (Date.mk 2025 1 1), tf_count := some 9,
                             da_count := some 1 } },
          some t1) :=
  update_existing_date envK updateJan1 getJan1 [rowJan1, rowJan2] "01/01/2025"
    (Date.mk 2025 1 1) 9 1 (by decide) (by decide) rfl rfl (by decide) (by decide) rfl rfl
    (by decide) (by decide) (by decide) (by decide)

/-- C6 as stated fails: `DELETE /api/delete?date=abc` with key has a non-empty
date that matches no row, yet the answer is 500, because `TO_DATE` raises. -/
theorem delete_malformed_date_answers_500 :
    authenticated envK deleteMalformed ∧
    deleteMalformed.query_date.truthy = true ∧
    (∀ r ∈ [rowJan1], dateParam deleteMalformed.query_date ≠ some (some r.date)) ∧
    handle envK .delete deleteMalformed (some [rowJan1]) =
      ({ status := 500, body := .error "Failed to delete data" }, some [rowJan1]) := by
  refine ⟨by decide, rfl, ?_, by decide⟩
  intro r _
  have h : dateParam deleteMalformed.query_date = none := by decide
  rw [h]
  exact fun e => Option.noConfusion e

/-- C6, amended: a `DELETE /api/delete` whose date is written as day, month
and year in digits separated by `/` and names a calendar date of the years 1 to
5874897, and whose date is stored in no row, is answered 404 with `No record
found for this date`, and the table stays as it was. -/
theorem delete_unknown_date_404 (env : Env) (req : Request) (t : Table) (d : String)
    (x : Date) (hauth : authenticated env req) (hq : req.query_date = .str d)
    (hx : TO_DATE d = some x) (hno : x ∉ dates t) :
    handle env .delete req (some t) =
      ({ status := 404, body := .message "No record found for this date" }, some t) := by
  have hdel : handle env .delete req (some t) = deleteHandler req (some t) :=
    authenticateApiKey_pass env req _ _ hauth
  have hne := ne_empty_of_TO_DATE d x hx
  rw [hdel]
  simp [deleteHandler, hq, truthy_str d hne, deleteRow, dateParam_str d x hx,
    filter_matchesDate_eq_nil t x hno, filter_not_matchesDate_eq_self t x hno]

/-- C6, amended, at `DELETE /api/delete?date=02/01/2025` on a table holding
only 1 January 2025. -/
theorem delete_unknown_date_404_witness :
    handle envK .delete deleteJan2 (some [rowJan1]) =
      ({ status := 404, body := .message "No record found for this date" }, some [rowJan1]) :=
  delete_unknown_date_404 envK deleteJan2 [rowJan1] "02/01/2025" (Date.mk 2025 1 2)
    (by decide) rfl (by decide) (by decide)

/-- C7: a `DELETE /api/delete` whose date text `d` names a stored date is
answered 200 with `Record deleted successfully` and the date rendered as
`DD/MM/YYYY`; the table loses the rows of that date and keeps every other row,
in order; `GET /api/data?date=d` is then answered 404 with `No data found for
this date`. -/
theorem delete_existing_date (env : Env) (req getReq : Request) (t : Table) (d : String)
    (x : Date) (hauth : authenticated env req) (hauthGet : authenticated env getReq)
    (hq : req.query_date = .str d) (hqGet : getReq.query_date = .str d)
    (hx : TO_DATE d = some x) (hin : x ∈ dates t) :
    ∃ t1 : Table,
      handle env .delete req (some t) =
        ({ status := 200,
           body := .deleted "Record deleted successfully" (some (TO_CHAR x)) }, some t1) ∧
      (validDDMMYYYY d = true → TO_CHAR x = d) ∧
      t1 = t.filter (fun r => decide (r.date ≠ x)) ∧
      (∀ r, r ∈ t1 ↔ r ∈ t ∧ r.date ≠ x) ∧
      handle env .data getReq (some t1) =
        ({ status := 404, body := .message "No data found for this date" }, some t1) := by
  have hdel : handle env .delete req (some t) = deleteHandler req (some t) :=
    authenticateApiKey_pass env req _ _ hauth
  have hget : ∀ db, handle env .data getReq db = dataHandler getReq db :=
    fun db => authenticateApiKey_pass env getReq _ db hauthGet
  have hne := ne_empty_of_TO_DATE d x hx
  obtain ⟨r0, rest, hf, hr0⟩ := filter_matchesDate_ne_nil t x hin
  have hsame : t.filter (fun r => !matchesDate (some x) r)
      = t.filter (fun r => decide (r.date ≠ x)) := by
    apply List.filter_congr
    intro r _
    simp [matchesDate, eq_comm]
  have hgone : x ∉ dates (t.filter (fun r => decide (r.date ≠ x))) := by
    intro h
    obtain ⟨r, hr, e⟩ := List.mem_map.1 h
    have := (List.mem_filter.1 hr).2
    simp [e] at this
  refine ⟨t.filter (fun r => decide (r.date ≠ x)), ?_, ?_, rfl, ?_, ?_⟩
  · rw [hdel]
    simp [deleteHandler, hq, truthy_str d hne, deleteRow, dateParam_str d x hx, hf, hr0,
      hsame]
  · intro hv
    obtain ⟨y, hy, hc⟩ := TO_DATE_of_validDDMMYYYY d hv
    rw [hx] at hy
    cases hy
    exact hc
  · intro r
    simp [List.mem_filter]
  · rw [hget]
    simp only [dataHandler, hqGet, truthy_str d hne, selectByDate, dateParam_str d x hx,
      filter_matchesDate_eq_nil _ x hgone]
    simp

/-- C7 at `DELETE /api/delete?date=01/01/2025` on a table holding 1 and
2 January 2025: the row of 2 January stays, and reading 1 January gives 404. -/
theorem delete_existing_date_witness :
    ∃ t1 : Table,
      handle envK .delete deleteJan1 (some [rowJan1, rowJan2]) =
        ({ status := 200,
           body := .deleted "Record deleted successfully"
             (some (TO_CHAR (Date.mk 2025 1 1))) }, some t1) ∧
      (validDDMMYYYY "01/01/2025" = true → TO_CHAR (Date.mk 2025 1 1) = "01/01/2025") ∧
      t1 = [rowJan1, rowJan2].filter (fun r => decide (r.date ≠ Date.mk 2025 1 1)) ∧
      (∀ r, r ∈ t1 ↔ r ∈ [rowJan1, rowJan2] ∧ r.date ≠ Date.mk 2025 1 1) ∧
      handle envK .data getJan1 (some t1) =
        ({ status := 404, body := .message "No data found for this date" }, some t1) :=
  delete_existing_date envK deleteJan1 getJan1 [rowJan1, rowJan2] "01/01/2025"
    (Date.mk 2025 1 1) (by decide) (by decide) rfl rfl (by decide) (by decide)

/-- On every table `GET /api/all/data` answers 200 with an array that lists the
rendering of every row exactly once, in non-decreasing order of the rendered
texts; on the empty table the answer is 200 with the empty array.  The table
itself is not modified. -/
theorem allData_sorted_by_text (env : Env) (req : Request) (t : Table)
    (hauth : authenticated env req) :
    (∃ rows : List RecordJson,
      handle env .allData req (some t) = ({ status := 200, body := .records rows }, some t) ∧
      rows.Perm (t.map render) ∧ rows.Sorted byDateText) ∧
    handle env .allData req (some []) = ({ status := 200, body := .records [] }, some []) := by
  have hall : ∀ db, handle env .allData req db = allDataHandler req db :=
    fun db => authenticateApiKey_pass env req _ db hauth
  refine ⟨⟨(t.map render).insertionSort byDateText, ?_,
    List.perm_insertionSort byDateText _, List.sorted_insertionSort byDateText _⟩, ?_⟩
  · rw [hall]
    rfl
  · rw [hall]
    rfl

/-- C8, the defect: on a table holding 2 January 2025 and 1 February 2025,
`GET /api/all/data` lists `01/02/2025` before `02/01/2025`, although 2 January
comes first in the calendar: `ORDER BY date` sorts the rendered texts and not
the stored dates. -/
theorem allData_not_chronological :
    handle envK .allData getAll (some [rowJan2, rowFeb1]) =
      ({ status := 200,
         body := .records
           [{ date := "01/02/2025", tf_count := some 1, da_count := some 2 },
            { date := "02/01/2025", tf_count := some 7, da_count := some 8 }] },
        some [rowJan2, rowFeb1]) ∧
    TO_CHAR rowFeb1.date = "01/02/2025" ∧ TO_CHAR rowJan2.date = "02/01/2025" ∧
    Date.le rowJan2.date rowFeb1.date ∧ ¬ Date.le rowFeb1.date rowJan2.date := by
  refine ⟨by decide, by decide, by decide, by decide, by decide⟩

/-- C9: whatever requests are served, from the empty table or from a database
where the table is still to be created, no two rows of the table share a date;
and a `POST /api/add` whose date is already stored is answered 500 with
`Failed to insert data` while the table, the stored counts included, stays as
it was. -/
theorem date_unique_in_every_reachable_state :
    (∀ (env : Env) (reqs : List (Route × Request)), uniqueDates (run env reqs (some []))) ∧
    (∀ (env : Env) (reqs : List (Route × Request)), uniqueDates (run env reqs none)) ∧
    (∀ (env : Env) (req : Request) (t : Table) (d : String) (x : Date),
      authenticated env req → req.body_date = .str d → TO_DATE d = some x → x ∈ dates t →
      handle env .add req (some t) =
        ({ status := 500, body := .error "Failed to insert data" }, some t)) ∧
    handle envK .add addJan1Again (some [rowJan1]) =
      ({ status := 500, body := .error "Failed to insert data" }, some [rowJan1]) := by
  refine ⟨?_, ?_, ?_, by decide⟩
  · intro env reqs
    exact uniqueDates_run env reqs (some []) (by simp [uniqueDates, dates])
  · intro env reqs
    exact uniqueDates_run env reqs none trivial
  · intro env req t d x hauth hd hx hin
    have hadd : handle env .add req (some t) = addHandler req (some t) :=
      authenticateApiKey_pass env req _ _ hauth
    rw [hadd]
    unfold addHandler insertRow
    rw [hd, dateParam_str d x hx]
    cases intParam req.body_tf_count <;> cases intParam req.body_da_count <;> simp [hin]

/-- C10, the defect: `POST /api/add` with body `{date: "01/01/2025"}`, both
counts left out, is answered 200 and stores a row whose `tf_count` and
`da_count` are `NULL`; `GET /api/data` then returns that row. -/
theorem add_without_counts_stores_null_counts :
    handle envK .add addNoCounts (some []) =
      ({ status := 200, body := .message "Data inserted successfully" },
        some [{ date := Date.mk 2025 1 1, tf_count := none, da_count := none }]) ∧
    run envK [(.create, getCreate), (.add, addNoCounts)] none =
      some [{ date := Date.mk 2025 1 1, tf_count := none, da_count := none }] ∧
    handle envK .data getJan1 (run envK [(.create, getCreate), (.add, addNoCounts)] none) =
      ({ status := 200,
         body := .record { date := "01/01/2025", tf_count := none, da_count := none } },
        some [{ date := Date.mk 2025 1 1, tf_count := none, da_count := none }]) := by
  refine ⟨by decide, by decide, by decide⟩

end Server
